import Mathlib

/-!
Verification of the station weather service (`src/server.py`).

The service exposes four RPC handlers over a replicated Cassandra store:
`RecordTemps` (write one observation), `StationMax` (strong-consistency
aggregate read with a fallback to a weak read on unavailability),
`StationName` (point lookup) and `StationSchema`.

The storage engine is external: every `session.execute` call either returns
rows, raises an unavailability exception (`cassandra.Unavailable` or
`cassandra.cluster.NoHostAvailable`), or raises some other exception.  We
embed that interface as a tagged outcome type and embed each handler as a
pure function of the outcomes the engine would give it, returning the gRPC
reply together with the list of statements the handler actually executed
(so "no fallback read is attempted" is the absence of the weak statement in
that trace).
-/

/-- Outcome of one `session.execute` call against the storage engine:
rows on success, an unavailability exception (`cassandra.Unavailable` /
`cassandra.cluster.NoHostAvailable`) carrying its message, or any other
exception carrying its message (`str(e)`). -/
inductive ExecOutcome (α : Type) where
  | ok (rows : α)
  | unavailable (msg : String)
  | err (msg : String)
deriving Repr, DecidableEq

/-- Result shape of `result.one()` for the `SELECT MAX(record.tmax) as
max_temp ... WHERE id = ?` aggregate: the outer option is whether a row
came back at all (`if row`), the inner option is whether `row.max_temp`
is non-null (`row.max_temp is not None`). -/
abbrev MaxRow := Option (Option Int)

/-- The statements the handlers execute, with their bound parameters.
`insertTemp`, `selectMaxStrong` and `selectMaxAvailable` are the prepared
statements of `StationService.__init__`; `selectName` is the ad-hoc
`SELECT name FROM weather.stations WHERE id = %s` of `StationName`. -/
inductive Query where
  | insertTemp (station date : String) (tmin tmax : Int)
  | selectMaxStrong (station : String)
  | selectMaxAvailable (station : String)
  | selectName (station : String)
deriving Repr, DecidableEq

/-- Replication factor of the `weather` keyspace:
`CREATE KEYSPACE weather WITH replication = SimpleStrategy,
replication_factor 3`. -/
def replicationFactor : Nat := 3

/-- Number of replicas that must acknowledge (for a write) or agree (for a
read), as bound to each prepared statement in `StationService.__init__`:
`insert_temp` gets `ConsistencyLevel.ONE`, `select_max_strong` gets
`ConsistencyLevel.THREE`, `select_max_available` gets
`ConsistencyLevel.ONE`; the name lookup runs at the session default of a
single replica. -/
def queryConsistency : Query → Nat
  | .insertTemp _ _ _ _ => 1
  | .selectMaxStrong _ => 3
  | .selectMaxAvailable _ => 1
  | .selectName _ => 1

/-- Reply of the `StationMax` RPC (`station_pb2.StationMaxReply`). -/
structure StationMaxReply where
  tmax : Int
  error : String
deriving Repr, DecidableEq

/-- Reply of the `RecordTemps` RPC (`station_pb2.RecordTempsReply`). -/
structure RecordTempsReply where
  error : String
deriving Repr, DecidableEq

/-- Reply of the `StationName` RPC (`station_pb2.StationNameReply`). -/
structure StationNameReply where
  name : String
  error : String
deriving Repr, DecidableEq

/-- `StationService.StationMax`: run `select_max_strong` for the station;
on a row with a non-null aggregate reply with it and empty error, on a
missing row or null aggregate reply `(-1, "No data found")`; if the strong
read raises unavailability, run `select_max_available` and classify its
outcome the same way except that a valid value is flagged
`"fallback_to_available"` and unavailability becomes `(-1, "unavailable")`;
any other exception of either read is returned as `(-1, str(e))`.  The
second component records the statements executed, in order.  The `weak`
argument is the outcome the engine would give the fallback read; it is
consulted only on the unavailability branch, and the trace shows whether
the fallback statement ran. -/
def StationMax (station : String) (strong weak : ExecOutcome MaxRow) :
    StationMaxReply × List Query :=
  match strong with
  | .ok row =>
      (match row with
       | some (some v) => { tmax := v, error := "" }
       | _ => { tmax := -1, error := "No data found" },
       [Query.selectMaxStrong station])
  | .unavailable _ =>
      (match weak with
       | .ok row =>
           match row with
           | some (some v) => { tmax := v, error := "fallback_to_available" }
           | _ => { tmax := -1, error := "No data found" }
       | .unavailable _ => { tmax := -1, error := "unavailable" }
       | .err m => { tmax := -1, error := m },
       [Query.selectMaxStrong station, Query.selectMaxAvailable station])
  | .err m =>
      ({ tmax := -1, error := m }, [Query.selectMaxStrong station])

/-- `StationService.RecordTemps`: execute the `insert_temp` prepared
statement once with the request's station, date, tmin, tmax; reply with an
empty error on success, `"unavailable"` on an unavailability exception,
and the exception's own message on any other exception. -/
def RecordTemps (station date : String) (tmin tmax : Int)
    (outcome : ExecOutcome Unit) : RecordTempsReply × List Query :=
  (match outcome with
   | .ok _ => { error := "" }
   | .unavailable _ => { error := "unavailable" }
   | .err m => { error := m },
   [Query.insertTemp station date tmin tmax])

/-- `StationService.StationName`: execute the name point lookup; if a row
comes back reply with its name and empty error, otherwise reply
`("", "Station not found")`.  The `row` argument is `result.one()`. -/
def StationName (station : String) (row : Option String) :
    StationNameReply × List Query :=
  (match row with
   | some n => { name := n, error := "" }
   | none => { name := "", error := "Station not found" },
   [Query.selectName station])

/-- One observation row of the `weather.stations` table, as written by
`insert_temp`: `PRIMARY KEY (id, date)` with payload
`record station_record` holding `tmin` and `tmax`. -/
structure ObsRow where
  id : String
  date : String
  tmin : Int
  tmax : Int
deriving Repr, DecidableEq

/-- The upsert semantics of the CQL
`INSERT INTO weather.stations (id, date, record) VALUES ...` under
`PRIMARY KEY (id, date)`: a row with the same key is overwritten in place,
otherwise the new row is appended. -/
def upsertObs (tbl : List ObsRow) (r : ObsRow) : List ObsRow :=
  if tbl.any (fun x => x.id == r.id && x.date == r.date) then
    tbl.map (fun x => if x.id == r.id && x.date == r.date then r else x)
  else
    tbl ++ [r]

/-- Point read of the row for key `(i, d)`. -/
def lookupObs (tbl : List ObsRow) (i d : String) : Option ObsRow :=
  tbl.find? (fun x => x.id == i && x.date == d)

/-- The table holds at most one row per `(id, date)` key. -/
def KeysNodup (tbl : List ObsRow) : Prop :=
  (tbl.map (fun x => (x.id, x.date))).Nodup

instance (tbl : List ObsRow) : Decidable (KeysNodup tbl) := by
  unfold KeysNodup; infer_instance

/-- Effect of an executed statement on the observation rows of the table:
`insert_temp` upserts its row, the reads leave the table unchanged. -/
def applyQuery (tbl : List ObsRow) : Query → List ObsRow
  | .insertTemp st d tn tx => upsertObs tbl { id := st, date := d, tmin := tn, tmax := tx }
  | _ => tbl

/-- Denotation of `MAX(record.tmax)` over all observations of a station:
null (`none`) when the station has no observation rows. -/
def maxTmax (tbl : List ObsRow) (station : String) : Option Int :=
  ((tbl.filter (fun r => r.id == station)).map (fun r => r.tmax)).max?

/-- Rows answer of the engine to each statement when every replica holds
table `tbl`: the aggregate selects always return one row whose `max_temp`
is `maxTmax`. -/
def answer (tbl : List ObsRow) : Query → MaxRow
  | .selectMaxStrong st => some (maxTmax tbl st)
  | .selectMaxAvailable st => some (maxTmax tbl st)
  | _ => none

/-! ## Helper lemmas about the keyed upsert -/

theorem upsertObs_key_self (r : ObsRow) :
    (r.id == r.id && r.date == r.date) = true := by simp

theorem upsertObs_idem (tbl : List ObsRow) (r : ObsRow) :
    upsertObs (upsertObs tbl r) r = upsertObs tbl r := by
  unfold upsertObs
  by_cases h : tbl.any (fun x => x.id == r.id && x.date == r.date) = true
  · rw [if_pos h]
    have hmem : (tbl.map (fun x => if x.id == r.id && x.date == r.date then r else x)).any
        (fun x => x.id == r.id && x.date == r.date) = true := by
      rcases List.any_eq_true.mp h with ⟨x, hx, hpx⟩
      exact List.any_eq_true.mpr
        ⟨r, List.mem_map.mpr ⟨x, hx, by simp [hpx]⟩, upsertObs_key_self r⟩
    rw [if_pos hmem, List.map_map]
    apply List.map_congr_left
    intro x _
    by_cases hpx : (x.id == r.id && x.date == r.date) = true
    · simp [Function.comp, hpx]
    · simp [Function.comp, hpx]
  · rw [if_neg h]
    have hall : ∀ x ∈ tbl, ¬ (x.id == r.id && x.date == r.date) = true := by
      intro x hx hpx
      exact h (List.any_eq_true.mpr ⟨x, hx, hpx⟩)
    have hmem : (tbl ++ [r]).any (fun x => x.id == r.id && x.date == r.date) = true := by
      simp
    rw [if_pos hmem, List.map_append]
    have h1 : tbl.map (fun x => if x.id == r.id && x.date == r.date then r else x) = tbl := by
      calc tbl.map (fun x => if x.id == r.id && x.date == r.date then r else x)
          = tbl.map id := List.map_congr_left (fun x hx => by simp [hall x hx])
        _ = tbl := List.map_id tbl
    rw [h1]
    simp

theorem lookupObs_upsertObs (tbl : List ObsRow) (r : ObsRow) :
    lookupObs (upsertObs tbl r) r.id r.date = some r := by
  unfold lookupObs upsertObs
  by_cases h : tbl.any (fun x => x.id == r.id && x.date == r.date) = true
  · rw [if_pos h]
    induction tbl with
    | nil => simp at h
    | cons x xs ih =>
      by_cases hpx : (x.id == r.id && x.date == r.date) = true
      · rw [List.map_cons, if_pos hpx]
        exact List.find?_cons_of_pos _ (upsertObs_key_self r)
      · rw [List.map_cons, if_neg hpx]
        rw [List.find?_cons_of_neg _ (by simpa using hpx)]
        apply ih
        rcases List.any_eq_true.mp h with ⟨y, hy, hpy⟩
        rcases List.mem_cons.mp hy with hyx | hyxs
        · exact absurd (hyx ▸ hpy) hpx
        · exact List.any_eq_true.mpr ⟨y, hyxs, hpy⟩
  · rw [if_neg h]
    have hnone : tbl.find? (fun x => x.id == r.id && x.date == r.date) = none := by
      apply List.find?_eq_none.mpr
      intro x hx hpx
      exact h (List.any_eq_true.mpr ⟨x, hx, hpx⟩)
    rw [List.find?_append, hnone]
    simp

theorem keysNodup_upsertObs (tbl : List ObsRow) (r : ObsRow) (hn : KeysNodup tbl) :
    KeysNodup (upsertObs tbl r) := by
  unfold KeysNodup upsertObs
  by_cases h : tbl.any (fun x => x.id == r.id && x.date == r.date) = true
  · rw [if_pos h, List.map_map]
    have hkeys : tbl.map ((fun x : ObsRow => (x.id, x.date)) ∘
        (fun x => if x.id == r.id && x.date == r.date then r else x))
        = tbl.map (fun x : ObsRow => (x.id, x.date)) := by
      apply List.map_congr_left
      intro x _
      by_cases hpx : (x.id == r.id && x.date == r.date) = true
      · have h1 : x.id = r.id := by simpa using (Bool.and_elim_left hpx)
        have h2 : x.date = r.date := by simpa using (Bool.and_elim_right hpx)
        simp [Function.comp, hpx, h1, h2]
      · simp [Function.comp, hpx]
    rw [hkeys]
    exact hn
  · rw [if_neg h, List.map_append]
    rw [List.nodup_append]
    refine ⟨hn, List.nodup_singleton _, ?_⟩
    intro k hk hk2
    simp only [List.map_cons, List.map_nil, List.mem_singleton] at hk2
    rcases List.mem_map.mp hk with ⟨x, hx, hkey⟩
    apply h
    apply List.any_eq_true.mpr
    refine ⟨x, hx, ?_⟩
    have h1 : x.id = r.id := by rw [hk2] at hkey; exact congrArg Prod.fst hkey
    have h2 : x.date = r.date := by rw [hk2] at hkey; exact congrArg Prod.snd hkey
    simp [h1, h2]

/-! ## Claim theorems -/

/-- C1: for every `StationMax` request, when the strong-consistency read
fails with an unavailability error and the weak-consistency fallback read
succeeds with a non-null aggregate, the reply carries that aggregate as
`tmax` with `error = "fallback_to_available"`; when the fallback read also
fails with an unavailability error, the reply is `error = "unavailable"`
with the sentinel `tmax = -1`.  In both cases the fallback statement was
executed after the strong one. -/
theorem stationMax_fallback_flag (st m m2 : String) (v : Int) :
    StationMax st (ExecOutcome.unavailable m) (ExecOutcome.ok (some (some v)))
      = ({ tmax := v, error := "fallback_to_available" },
         [Query.selectMaxStrong st, Query.selectMaxAvailable st]) ∧
    StationMax st (ExecOutcome.unavailable m) (ExecOutcome.unavailable m2)
      = ({ tmax := -1, error := "unavailable" },
         [Query.selectMaxStrong st, Query.selectMaxAvailable st]) :=
  ⟨rfl, rfl⟩

/-- C2: when the strong-consistency read fails for any reason other than
unavailability, the reply returns that error message verbatim with
`tmax = -1`, and the fallback statement is never executed (the trace is
exactly the strong statement), whatever the fallback engine would have
answered. -/
theorem stationMax_other_error_verbatim (st m : String) (weak : ExecOutcome MaxRow) :
    StationMax st (ExecOutcome.err m) weak
      = ({ tmax := -1, error := m }, [Query.selectMaxStrong st]) ∧
    Query.selectMaxAvailable st ∉ (StationMax st (ExecOutcome.err m) weak).2 := by
  refine ⟨rfl, ?_⟩
  simp [StationMax]

/-- C3: every `StationMax` request executes the max-tmax aggregate for the
requested station first, at consistency level `THREE`, which is at least a
majority of the keyspace's replication factor 3 and no more than the
replication factor; on a synchronized table that statement denotes
`MAX(record.tmax)` over the station's observations. -/
theorem stationMax_strong_first (st : String) (strong weak : ExecOutcome MaxRow) :
    (StationMax st strong weak).2.head? = some (Query.selectMaxStrong st) ∧
    queryConsistency (Query.selectMaxStrong st) = 3 ∧
    replicationFactor = 3 ∧
    replicationFactor / 2 + 1 ≤ queryConsistency (Query.selectMaxStrong st) ∧
    queryConsistency (Query.selectMaxStrong st) ≤ replicationFactor ∧
    ∀ tbl : List ObsRow, answer tbl (Query.selectMaxStrong st) = some (maxTmax tbl st) := by
  refine ⟨?_, rfl, rfl, by simp [replicationFactor, queryConsistency],
    by simp [replicationFactor, queryConsistency], fun tbl => rfl⟩
  cases strong with
  | ok row => cases row with
    | none => rfl
    | some t => cases t <;> rfl
  | unavailable m => rfl
  | err m => rfl

/-- C4: when the strong-consistency read succeeds but yields no row or a
null aggregate (as on a table with zero observations for the station), the
reply is `tmax = -1` with `error = "No data found"`; this outcome does not
execute the fallback statement and its error string differs from both the
clean-success empty string and `"unavailable"`. -/
theorem stationMax_no_data (st : String) (weak : ExecOutcome MaxRow) :
    StationMax st (ExecOutcome.ok none) weak
      = ({ tmax := -1, error := "No data found" }, [Query.selectMaxStrong st]) ∧
    StationMax st (ExecOutcome.ok (some none)) weak
      = ({ tmax := -1, error := "No data found" }, [Query.selectMaxStrong st]) ∧
    answer [] (Query.selectMaxStrong st) = some none ∧
    Query.selectMaxAvailable st ∉ (StationMax st (ExecOutcome.ok (some none)) weak).2 ∧
    "No data found" ≠ "" ∧
    "No data found" ≠ "unavailable" := by
  refine ⟨rfl, rfl, rfl, ?_, by decide, by decide⟩
  simp [StationMax]

/-- C5: the `RecordTemps` reply carries an empty error string on a
successful write, exactly `"unavailable"` on an unavailability error
(whatever its message), and the original message of any other storage
exception. -/
theorem recordTemps_error_mapping (st d : String) (tn tx : Int) (m : String) :
    (RecordTemps st d tn tx (ExecOutcome.ok ())).1 = { error := "" } ∧
    (RecordTemps st d tn tx (ExecOutcome.unavailable m)).1 = { error := "unavailable" } ∧
    (RecordTemps st d tn tx (ExecOutcome.err m)).1 = { error := m } :=
  ⟨rfl, rfl, rfl⟩

/-- C6: every `RecordTemps` request executes exactly the one insert
statement for its `(station, date)` key, whatever the outcome; that
statement is bound to consistency level `ONE`, the weakest level any
statement of the service uses; its effect on any table — including one
holding no row at all for the station — is the keyed upsert of the
observation record, with no station-existence validation. -/
theorem recordTemps_single_weak_upsert (st d : String) (tn tx : Int)
    (o : ExecOutcome Unit) :
    (RecordTemps st d tn tx o).2 = [Query.insertTemp st d tn tx] ∧
    queryConsistency (Query.insertTemp st d tn tx) = 1 ∧
    (∀ q : Query, 1 ≤ queryConsistency q) ∧
    (∀ tbl : List ObsRow, applyQuery tbl (Query.insertTemp st d tn tx) =
      upsertObs tbl { id := st, date := d, tmin := tn, tmax := tx }) ∧
    upsertObs [] { id := st, date := d, tmin := tn, tmax := tx }
      = [{ id := st, date := d, tmin := tn, tmax := tx }] := by
  refine ⟨rfl, rfl, fun q => ?_, fun tbl => rfl, rfl⟩
  cases q <;> simp [queryConsistency]

/-- C7: `StationName` replies with the row's name and an empty error when
a row exists for the station id, and with an empty name and the non-empty
error `"Station not found"` when no row matches; in either case exactly
the one point lookup is executed and no fallback statement. -/
theorem stationName_lookup (st n : String) :
    StationName st (some n) = ({ name := n, error := "" }, [Query.selectName st]) ∧
    StationName st none
      = ({ name := "", error := "Station not found" }, [Query.selectName st]) ∧
    "Station not found" ≠ "" ∧
    Query.selectMaxAvailable st ∉ (StationName st none).2 := by
  refine ⟨rfl, rfl, by decide, ?_⟩
  simp [StationName]

/-- C8: the `RecordTemps` write is the single upsert of its trace, and the
upsert is idempotent (writing the same row twice equals writing it once);
for a fixed `(station, date)` key a later write overwrites the earlier one,
so a subsequent point read observes the latest value; and the upsert never
introduces a duplicate row for a key the table already keeps unique. -/
theorem recordTemps_idempotent_and_lww (tbl : List ObsRow)
    (st d : String) (tn tx : Int) (r1 r2 : ObsRow) :
    (RecordTemps st d tn tx (ExecOutcome.ok ())).2 = [Query.insertTemp st d tn tx] ∧
    applyQuery (applyQuery tbl (Query.insertTemp st d tn tx))
        (Query.insertTemp st d tn tx)
      = applyQuery tbl (Query.insertTemp st d tn tx) ∧
    (r1.id = r2.id → r1.date = r2.date →
      lookupObs (upsertObs (upsertObs tbl r1) r2) r2.id r2.date = some r2) ∧
    (KeysNodup tbl → KeysNodup (upsertObs tbl r1)) := by
  refine ⟨rfl, ?_, fun _ _ => ?_, fun hn => ?_⟩
  · exact upsertObs_idem tbl { id := st, date := d, tmin := tn, tmax := tx }
  · exact lookupObs_upsertObs (upsertObs tbl r1) r2
  · exact keysNodup_upsertObs tbl r1 hn

/-- Witness for C8 at a concrete table and rows: the same-key hypotheses
and the key-uniqueness hypothesis hold and are discharged at
`(USW00014837, 2023-01-01)` then overwritten by a second write. -/
theorem recordTemps_idempotent_and_lww_witness :
    lookupObs
      (upsertObs (upsertObs [ObsRow.mk "USW00014837" "2023-01-01" (-5) 2]
          (ObsRow.mk "USW00014837" "2023-01-01" (-1) 9))
        (ObsRow.mk "USW00014837" "2023-01-01" 0 4))
      "USW00014837" "2023-01-01" = some (ObsRow.mk "USW00014837" "2023-01-01" 0 4) ∧
    KeysNodup (upsertObs [ObsRow.mk "USW00014837" "2023-01-01" (-5) 2]
      (ObsRow.mk "USW00014837" "2023-01-01" (-1) 9)) :=
  ⟨(recordTemps_idempotent_and_lww [ObsRow.mk "USW00014837" "2023-01-01" (-5) 2]
      "USW00014837" "2023-01-01" 0 4
      (ObsRow.mk "USW00014837" "2023-01-01" (-1) 9)
      (ObsRow.mk "USW00014837" "2023-01-01" 0 4)).2.2.1 rfl rfl,
   (recordTemps_idempotent_and_lww [ObsRow.mk "USW00014837" "2023-01-01" (-5) 2]
      "USW00014837" "2023-01-01" 0 4
      (ObsRow.mk "USW00014837" "2023-01-01" (-1) 9)
      (ObsRow.mk "USW00014837" "2023-01-01" 0 4)).2.2.2 (by decide)⟩

/-- C9: when the strong-consistency read fails with an unavailability
error and the fallback read succeeds but yields no row or a null
aggregate, the reply is `tmax = -1` with `error = "No data found"` — the
same reply as a strong-tier empty result, with no degraded indicator. -/
theorem stationMax_fallback_no_data (st m : String) :
    StationMax st (ExecOutcome.unavailable m) (ExecOutcome.ok none)
      = ({ tmax := -1, error := "No data found" },
         [Query.selectMaxStrong st, Query.selectMaxAvailable st]) ∧
    StationMax st (ExecOutcome.unavailable m) (ExecOutcome.ok (some none))
      = ({ tmax := -1, error := "No data found" },
         [Query.selectMaxStrong st, Query.selectMaxAvailable st]) ∧
    (StationMax st (ExecOutcome.unavailable m) (ExecOutcome.ok none)).1
      = (StationMax st (ExecOutcome.ok none) (ExecOutcome.ok none)).1 ∧
    "No data found" ≠ "fallback_to_available" :=
  ⟨rfl, rfl, rfl, by decide⟩

/-- C10: in every `StationMax` reply, either `tmax` is the sentinel `-1`
or the error string is empty (clean strong success) or exactly
`"fallback_to_available"` (degraded success); and every non-success
outcome — missing or null aggregate on either tier, double unavailability,
or a non-availability error on either tier — carries `tmax = -1`. -/
theorem stationMax_sentinel_invariant (st : String) (strong weak : ExecOutcome MaxRow) :
    ((StationMax st strong weak).1.tmax = -1 ∨
      (StationMax st strong weak).1.error = "" ∨
      (StationMax st strong weak).1.error = "fallback_to_available") ∧
    (StationMax st (ExecOutcome.ok none) weak).1.tmax = -1 ∧
    (StationMax st (ExecOutcome.ok (some none)) weak).1.tmax = -1 ∧
    (∀ m : String, (StationMax st (ExecOutcome.err m) weak).1.tmax = -1) ∧
    (∀ m m2 : String,
      (StationMax st (ExecOutcome.unavailable m) (ExecOutcome.unavailable m2)).1.tmax = -1) ∧
    (∀ m m2 : String,
      (StationMax st (ExecOutcome.unavailable m) (ExecOutcome.err m2)).1.tmax = -1) ∧
    (∀ m : String,
      (StationMax st (ExecOutcome.unavailable m) (ExecOutcome.ok none)).1.tmax = -1) ∧
    (∀ m : String,
      (StationMax st (ExecOutcome.unavailable m) (ExecOutcome.ok (some none))).1.tmax = -1) := by
  refine ⟨?_, rfl, rfl, fun m => rfl, fun m m2 => rfl, fun m m2 => rfl,
    fun m => rfl, fun m => rfl⟩
  cases strong with
  | ok row =>
    match row with
    | none => exact Or.inl rfl
    | some none => exact Or.inl rfl
    | some (some v) => exact Or.inr (Or.inl rfl)
  | unavailable m =>
    cases weak with
    | ok row =>
      match row with
      | none => exact Or.inl rfl
      | some none => exact Or.inl rfl
      | some (some v) => exact Or.inr (Or.inr rfl)
    | unavailable m2 => exact Or.inl rfl
    | err m2 => exact Or.inl rfl
  | err m => exact Or.inl rfl
